import Mathlib

/-!
Verification development for the sales-dashboard pipeline (src/app.py).

The pipeline is: load a tabular sales dataset, filter rows by (state, month)
with sentinel values "BRASIL" / "TODOS" meaning "no filter", group by one
dimension column summing one metric column, sort groups by summed metric
descending, format a label per group, and build a bar chart specification
with a constant mean-reference line and a synthesized title.

Embedding choices:
* a pandas DataFrame of sales records is a `List Row`; column access by name
  (`df['Mês']`, `df[self.metric]`) is embedded as string-keyed selectors
  `getDim` / `getMetric` over the columns the app exposes;
* numeric cell values are `Rat` (exact arithmetic stands in for the numeric
  dtype of the metric columns);
* Python's `round` (round-half-to-even) is `pyRound`; the format spec
  `{value:,.2f}` is `pyFormatComma2`; single-character `str.replace` is a
  character map `replaceChar`;
* `pandas.DataFrame.sort_values(..., ascending=False)` is embedded as a
  deterministic comparison sort (`List.insertionSort`) on the summed metric,
  descending; `groupby` enumerates the distinct keys in ascending order
  (pandas `groupby` sorts keys by default) via `insertionSort` on `≤` after
  `dedup`.
-/

/-- One sales transaction row, with the columns the dashboard uses
(Produto, Estado, Mês, Quantidade Vendida, Receita Total (R$), Lucro (R$),
Margem (%)). -/
structure Row where
  produto : String
  estado : String
  mes : String
  quantidadeVendida : Rat
  receitaTotal : Rat
  lucro : Rat
  margem : Rat
deriving DecidableEq, Repr

/-- Column access by dimension name: `df[dimension]` for the three dimension
columns offered by the app ('Produto', 'Estado', 'Mês'). -/
def getDim (dimension : String) (r : Row) : String :=
  if dimension = "Produto" then r.produto
  else if dimension = "Estado" then r.estado
  else r.mes

/-- Column access by metric name: `df[metric]` for the four metric columns
offered by the app. -/
def getMetric (metric : String) (r : Row) : Rat :=
  if metric = "Quantidade Vendida" then r.quantidadeVendida
  else if metric = "Receita Total (R$)" then r.receitaTotal
  else if metric = "Lucro (R$)" then r.lucro
  else r.margem

/-- `SalesFilter.apply_filters`: copy the dataframe, keep rows whose `Mês`
equals `month` unless `month = "TODOS"`, then keep rows whose `Estado`
equals `state` unless `state = "BRASIL"`. -/
def SalesFilter.apply_filters (df : List Row) (state month : String) : List Row :=
  let filtered0 := df
  let filtered1 :=
    if month ≠ "TODOS" then filtered0.filter (fun r => r.mes == month) else filtered0
  if state ≠ "BRASIL" then filtered1.filter (fun r => r.estado == state) else filtered1

/-- Python `round` on an exact rational: round to nearest, ties to even
(banker's rounding), as an integer. -/
def pyRound (v : Rat) : Int :=
  if v - (⌊v⌋ : Rat) < 1 / 2 then ⌊v⌋
  else if 1 / 2 < v - (⌊v⌋ : Rat) then ⌊v⌋ + 1
  else if ⌊v⌋ % 2 = 0 then ⌊v⌋ else ⌊v⌋ + 1

/-- Decimal string of an integer (Python `str` on an int). -/
def intStr (i : Int) : String :=
  if i < 0 then "-" ++ Nat.repr i.natAbs else Nat.repr i.natAbs

/-- Helper for thousands grouping: the input list is the digit characters in
reverse; a comma is inserted after every third digit. -/
def commasRevAux : Nat → List Char → List Char
  | _, [] => []
  | 0, c :: cs => ',' :: c :: commasRevAux 2 cs
  | Nat.succ k, c :: cs => c :: commasRevAux k cs

/-- Decimal digits of a natural number with a comma as thousands separator,
as produced by Python's `,` format flag. -/
def commaFmtNat (n : Nat) : String :=
  String.mk ((commasRevAux 3 (Nat.repr n).data.reverse).reverse)

/-- Two-decimal fractional part, zero padded. -/
def twoDigits (n : Nat) : String :=
  if n < 10 then "0" ++ Nat.repr n else Nat.repr n

/-- Python `f"{value:,.2f}"`: round to two decimals (ties to even), thousands
separated by commas, decimal point. -/
def pyFormatComma2 (v : Rat) : String :=
  let cents : Int := pyRound (v * 100)
  let sign := if cents < 0 then "-" else ""
  let a := cents.natAbs
  sign ++ commaFmtNat (a / 100) ++ "." ++ twoDigits (a % 100)

/-- `str.replace` for a single-character pattern: map over the characters. -/
def replaceChar (a b : Char) (s : String) : String :=
  String.mk (s.data.map fun c => if c = a then b else c)

/-- The chained `.replace(",", "X").replace(".", ",").replace("X", ".")` that
swaps the US separators into Brazilian ones. -/
def brSwap (s : String) : String :=
  replaceChar 'X' '.' (replaceChar '.' ',' (replaceChar ',' 'X' s))

/-- Bool test for the first character list being a prefix of the second. -/
def charsPrefixOf : List Char → List Char → Bool
  | [], _ => true
  | _ :: _, [] => false
  | a :: as, b :: bs => a == b && charsPrefixOf as bs

/-- Bool test for the first character list occurring contiguously in the
second. -/
def charsInfixOf (needle : List Char) : List Char → Bool
  | [] => charsPrefixOf needle []
  | c :: cs => charsPrefixOf needle (c :: cs) || charsInfixOf needle cs

/-- Python's `needle in hay` substring test on strings. -/
def strContains (hay needle : String) : Bool :=
  charsInfixOf needle.data hay.data

/-- `SalesGrouper._format_value`: metric-specific label formatting with bold
markup; Margin gets two decimals and a trailing percent sign, Quantity is
rounded to an integer, metrics containing "R$" get a currency prefix, and
everything is put into Brazilian separators by the replace chain. -/
def SalesGrouper.format_value (metric : String) (value : Rat) : String :=
  if metric = "Margem (%)" then
    brSwap ("<b>" ++ pyFormatComma2 value ++ "%</b>")
  else if metric = "Quantidade Vendida" then
    "<b>" ++ intStr (pyRound value) ++ "</b>"
  else if strContains metric "R$" then
    brSwap ("<b>R$ " ++ pyFormatComma2 value ++ "</b>")
  else
    brSwap ("<b>" ++ pyFormatComma2 value ++ "</b>")

/-- One aggregation result: a dimension value, its summed metric and the
formatted label column added by `group_and_format`. -/
structure GroupedRow where
  dimValue : String
  metricSum : Rat
  label : String
deriving DecidableEq, Repr

/-- Ascending order on group keys: pandas `groupby` (default `sort=True`)
lists the distinct keys in ascending order. -/
def strLE (a b : String) : Prop := a ≤ b

instance : DecidableRel strLE := fun a b => inferInstanceAs (Decidable (a ≤ b))

instance : IsTotal String strLE := ⟨fun a b => le_total a b⟩

instance : IsTrans String strLE := ⟨fun _ _ _ h h2 => le_trans h h2⟩

/-- Descending order on the summed metric: `sort_values(by=metric,
ascending=False)` puts a row before another when its sum is at least as
large. -/
def sumGE (a b : String × Rat) : Prop := b.2 ≤ a.2

instance : DecidableRel sumGE := fun a b => inferInstanceAs (Decidable (b.2 ≤ a.2))

instance : IsTotal (String × Rat) sumGE := ⟨fun a b => le_total b.2 a.2⟩

instance : IsTrans (String × Rat) sumGE := ⟨fun _ _ _ h h2 => le_trans h2 h⟩

/-- The `groupby(dimension).agg({metric: 'sum'}).reset_index()` step: one
(key, sum) pair per distinct dimension value, keys in ascending order, the
sum taken over the rows whose dimension column equals the key. -/
def SalesGrouper.groupSums (metric dimension : String) (df : List Row) :
    List (String × Rat) :=
  (List.insertionSort strLE ((df.map (getDim dimension)).dedup)).map
    (fun k => (k, ((df.filter (fun r => getDim dimension r == k)).map (getMetric metric)).sum))

/-- Packaging of one `(key, sum)` pair into a `GroupedRow`, adding the
formatted label column (`grouped['label'] = grouped[metric].apply(...)`). -/
def SalesGrouper.toGroupedRow (metric : String) (p : String × Rat) : GroupedRow :=
  { dimValue := p.1, metricSum := p.2, label := SalesGrouper.format_value metric p.2 }

/-- `SalesGrouper.group_and_format`: group by the dimension summing the
metric, sort descending by the summed metric, and add the formatted label
column. -/
def SalesGrouper.group_and_format (metric dimension : String) (df : List Row) :
    List GroupedRow :=
  (List.insertionSort sumGE (SalesGrouper.groupSums metric dimension df)).map
    (SalesGrouper.toGroupedRow metric)

/-- The parts of the plotly figure built by `SalesChart.generate_chart` that
carry data: the bar trace, the mean-reference scatter trace and the title
layout. -/
structure ChartSpec where
  barX : List String
  barY : List Rat
  barText : List String
  barTextPosition : String
  refLineX : List String
  refLineY : List Rat
  refLineName : String
  title : String
  titleX : Rat
  titleXAnchor : String
deriving DecidableEq, Repr

/-- `SalesChart.generate_chart`: bars from the aggregated table, a scatter
trace at the constant height `df[metric].mean()` repeated `len(df)` times,
and the synthesized centered title. -/
def SalesChart.generate_chart (df : List GroupedRow)
    (metric dimension state month : String) : ChartSpec :=
  let avg : Rat := (df.map (fun g => g.metricSum)).sum / (df.length : Rat)
  let month_title := if month ≠ "TODOS" then month else "Todos os Meses"
  { barX := df.map (fun g => g.dimValue)
    barY := df.map (fun g => g.metricSum)
    barText := df.map (fun g => g.label)
    barTextPosition := "outside"
    refLineX := df.map (fun g => g.dimValue)
    refLineY := List.replicate df.length avg
    refLineName := "Média"
    title := metric ++ " por " ++ dimension ++ " - " ++ state ++ " / " ++ month_title
    titleX := 1 / 2
    titleXAnchor := "center" }

/-- Unweighted arithmetic mean of a list of values (the spec's description
of the reference-line height). -/
def unweightedMean (l : List Rat) : Rat := l.sum / (l.length : Rat)

/-- Outcome of one run of the dashboard pipeline: either the empty-selection
warning state, or the aggregated table together with its chart. -/
inductive RunResult where
  | noData : RunResult
  | chart : List GroupedRow → ChartSpec → RunResult
deriving DecidableEq, Repr

/-- The data pipeline of `DashboardApp.run` for one user selection: filter,
stop with a warning when the filtered frame is empty, otherwise group and
build the chart. -/
def DashboardApp.run (data : List Row) (state month metric dimension : String) :
    RunResult :=
  let filtered_data := SalesFilter.apply_filters data state month
  if filtered_data.isEmpty then RunResult.noData
  else
    let grouped_data := SalesGrouper.group_and_format metric dimension filtered_data
    RunResult.chart grouped_data
      (SalesChart.generate_chart grouped_data metric dimension state month)

/-- The per-session store holding the loaded dataset (`data` in
`DashboardApp.run`). -/
structure Session where
  dataset : List Row
deriving DecidableEq, Repr

/-- `apply_filters` with the session store passed explicitly: the function
reads `df` (the `df.copy()` detaches the working frame from the store) and
every later step rebinds the local `filtered_df`, so the call returns the
filtered rows together with the store it leaves behind. -/
def SalesFilter.apply_filters_run (s : Session) (state month : String) :
    List Row × Session :=
  let filtered_df := s.dataset
  let filtered_df :=
    if month ≠ "TODOS" then filtered_df.filter (fun r => r.mes == month) else filtered_df
  let filtered_df :=
    if state ≠ "BRASIL" then filtered_df.filter (fun r => r.estado == state) else filtered_df
  (filtered_df, s)

/-- Sample rows used to instantiate the universally quantified theorems. -/
def rowCanetaSPJan : Row :=
  { produto := "Caneta", estado := "SP", mes := "Janeiro",
    quantidadeVendida := 5, receitaTotal := 50, lucro := 10, margem := 20 }

/-- A second sample row in another state and month. -/
def rowLapisRJFev : Row :=
  { produto := "Lápis", estado := "RJ", mes := "Fevereiro",
    quantidadeVendida := 10, receitaTotal := 80, lucro := 16, margem := 20 }

/-- A third sample row sharing the product of the first. -/
def rowCanetaRJJan : Row :=
  { produto := "Caneta", estado := "RJ", mes := "Janeiro",
    quantidadeVendida := 15, receitaTotal := 120, lucro := 24, margem := 20 }

/-- A small three-row dataset. -/
def sampleDf : List Row := [rowCanetaSPJan, rowLapisRJFev, rowCanetaRJJan]

/-- Three aggregated rows with sums 10, 20, 30. -/
def sampleGroups : List GroupedRow :=
  [{ dimValue := "A", metricSum := 10, label := "a" },
   { dimValue := "B", metricSum := 20, label := "b" },
   { dimValue := "C", metricSum := 30, label := "c" }]

/-- C6: with both sentinel selections the filter is the identity: for every
dataset `df`, `apply_filters df "BRASIL" "TODOS"` returns `df` unchanged. -/
theorem SalesFilter.apply_filters_sentinel_identity (df : List Row) :
    SalesFilter.apply_filters df "BRASIL" "TODOS" = df := by
  simp [SalesFilter.apply_filters]

/-- C2: a record is in the filtered result iff it is in the input, its month
matches whenever a month filter is active, and its state matches whenever a
state filter is active; in particular, for a non-sentinel state every
record of the result carries that state. -/
theorem SalesFilter.apply_filters_mem_iff (df : List Row) (state month : String) :
    (∀ r : Row, r ∈ SalesFilter.apply_filters df state month ↔
        (r ∈ df ∧ (month ≠ "TODOS" → r.mes = month) ∧
          (state ≠ "BRASIL" → r.estado = state))) ∧
    (state ≠ "BRASIL" →
      ∀ r ∈ SalesFilter.apply_filters df state month, r.estado = state) := by
  have hmem : ∀ r : Row, r ∈ SalesFilter.apply_filters df state month ↔
      (r ∈ df ∧ (month ≠ "TODOS" → r.mes = month) ∧
        (state ≠ "BRASIL" → r.estado = state)) := by
    intro r
    unfold SalesFilter.apply_filters
    by_cases hm : month = "TODOS" <;> by_cases hs : state = "BRASIL" <;>
      (simp [hm, hs, List.mem_filter]; try tauto)
  refine ⟨hmem, fun hs r hr => ?_⟩
  exact ((hmem r).mp hr).2.2 hs

/-- C2 witness: at a concrete dataset and selection, the membership
characterization holds. -/
theorem SalesFilter.apply_filters_mem_iff_witness :
    (∀ r : Row, r ∈ SalesFilter.apply_filters sampleDf "RJ" "Janeiro" ↔
        (r ∈ sampleDf ∧ ("Janeiro" ≠ "TODOS" → r.mes = "Janeiro") ∧
          ("RJ" ≠ "BRASIL" → r.estado = "RJ"))) ∧
    ("RJ" ≠ "BRASIL" →
      ∀ r ∈ SalesFilter.apply_filters sampleDf "RJ" "Janeiro", r.estado = "RJ") :=
  SalesFilter.apply_filters_mem_iff sampleDf "RJ" "Janeiro"

/-- C9: the filter never mutates the session's loaded dataset: with the
store passed explicitly, `apply_filters` leaves it unchanged (same records
in the same order) and returns the same rows as the pure filter. -/
theorem SalesFilter.apply_filters_run_frame (s : Session) (state month : String) :
    (SalesFilter.apply_filters_run s state month).2 = s ∧
    (SalesFilter.apply_filters_run s state month).1 =
      SalesFilter.apply_filters s.dataset state month :=
  ⟨rfl, rfl⟩

/-- C8 counterexample: at a concrete selection the generated title is the
Portuguese literal "Quantidade Vendida por Produto - SP / Todos os Meses",
not the claimed English template with "by", an em dash and 'All Months'. -/
theorem SalesChart.generate_chart_title_counterexample :
    (SalesChart.generate_chart [] "Quantidade Vendida" "Produto" "SP" "TODOS").title ≠
      "Quantidade Vendida by Produto — SP / All Months" := by
  decide

/-- C8 amended: the title equals
`"{metric} por {dimension} - {state} / {month}"` with the month component
replaced by "Todos os Meses" when the month is the sentinel "TODOS", and the
title is centered (`x = 0.5`, `xanchor = 'center'`). -/
theorem SalesChart.generate_chart_title_amended (df : List GroupedRow)
    (metric dimension state month : String) :
    (SalesChart.generate_chart df metric dimension state month).title =
      metric ++ " por " ++ dimension ++ " - " ++ state ++ " / " ++
        (if month = "TODOS" then "Todos os Meses" else month) ∧
    (SalesChart.generate_chart df metric dimension state month).titleX = 1 / 2 ∧
    (SalesChart.generate_chart df metric dimension state month).titleXAnchor =
      "center" := by
  refine ⟨?_, rfl, rfl⟩
  show metric ++ " por " ++ dimension ++ " - " ++ state ++ " / " ++
      (if month ≠ "TODOS" then month else "Todos os Meses") = _
  by_cases h : month = "TODOS" <;> simp [h]

/-- C4: the label formatter realizes the metric-specific rules on the spec's
examples: Margin 1234.5 gives "1.234,50%" in bold markup, Quantity 999.6
gives the rounded "1000" in bold markup, and the currency metric 1234.5
gives "R$ 1.234,50" in bold markup. -/
theorem SalesGrouper.format_value_spec_examples :
    SalesGrouper.format_value "Margem (%)" ((2469 : Rat) / 2) = "<b>1.234,50%</b>" ∧
    SalesGrouper.format_value "Quantidade Vendida" ((4998 : Rat) / 5) = "<b>1000</b>" ∧
    SalesGrouper.format_value "Receita Total (R$)" ((2469 : Rat) / 2) =
      "<b>R$ 1.234,50</b>" := by
  have h1 : pyRound ((2469 : Rat) / 2 * 100) = 123450 := by norm_num [pyRound]
  have h2 : pyRound ((4998 : Rat) / 5) = 1000 := by norm_num [pyRound]
  refine ⟨?_, ?_, ?_⟩
  · simp only [SalesGrouper.format_value, pyFormatComma2, h1]
    decide
  · simp only [SalesGrouper.format_value, h2]
    decide
  · simp only [SalesGrouper.format_value, pyFormatComma2, h1]
    decide

/-- Away from exact halves, banker's rounding agrees with rounding to the
nearest integer. -/
lemma pyRound_eq_round (v : Rat) (h : v - (⌊v⌋ : Rat) ≠ 1 / 2) :
    pyRound v = round v := by
  have h0 : (⌊v⌋ : Rat) ≤ v := Int.floor_le v
  have h1 : v < ⌊v⌋ + 1 := Int.lt_floor_add_one v
  rw [round_eq]
  unfold pyRound
  split_ifs with hlt hgt heven
  · symm
    rw [Int.floor_eq_iff]
    constructor
    · linarith
    · linarith
  · symm
    rw [Int.floor_eq_iff]
    constructor
    · push_cast
      linarith
    · push_cast
      linarith
  · exact absurd (le_antisymm (not_lt.mp hgt) (not_lt.mp hlt)) h
  · exact absurd (le_antisymm (not_lt.mp hgt) (not_lt.mp hlt)) h

/-- C10: the Quantity label uses Python's round-half-to-even: 2.5 formats as
"2", 3.5 formats as "4", and any value not at an exact half formats as the
nearest integer. -/
theorem SalesGrouper.format_value_quantity_half_even (v : Rat)
    (h : v - (⌊v⌋ : Rat) ≠ 1 / 2) :
    SalesGrouper.format_value "Quantidade Vendida" ((5 : Rat) / 2) = "<b>2</b>" ∧
    SalesGrouper.format_value "Quantidade Vendida" ((7 : Rat) / 2) = "<b>4</b>" ∧
    SalesGrouper.format_value "Quantidade Vendida" v =
      "<b>" ++ intStr (round v) ++ "</b>" := by
  have h25 : pyRound ((5 : Rat) / 2) = 2 := by norm_num [pyRound]
  have h35 : pyRound ((7 : Rat) / 2) = 4 := by norm_num [pyRound]
  refine ⟨?_, ?_, ?_⟩
  · simp only [SalesGrouper.format_value, h25]
    decide
  · simp only [SalesGrouper.format_value, h35]
    decide
  · have hb : SalesGrouper.format_value "Quantidade Vendida" v =
        "<b>" ++ intStr (pyRound v) ++ "</b>" := by
      unfold SalesGrouper.format_value
      rw [if_neg (by decide), if_pos rfl]
    rw [hb, pyRound_eq_round v h]

/-- C10 witness: at a value with fractional part one quarter, the hypothesis
holds and the characterization applies. -/
theorem SalesGrouper.format_value_quantity_half_even_witness :
    ((9 : Rat) / 4 - (⌊(9 : Rat) / 4⌋ : Rat) ≠ 1 / 2) ∧
    (SalesGrouper.format_value "Quantidade Vendida" ((5 : Rat) / 2) = "<b>2</b>" ∧
      SalesGrouper.format_value "Quantidade Vendida" ((7 : Rat) / 2) = "<b>4</b>" ∧
      SalesGrouper.format_value "Quantidade Vendida" ((9 : Rat) / 4) =
        "<b>" ++ intStr (round ((9 : Rat) / 4)) ++ "</b>") :=
  ⟨by norm_num,
    SalesGrouper.format_value_quantity_half_even ((9 : Rat) / 4) (by norm_num)⟩

/-- Summing an indicator over keys that miss `x` gives zero. -/
lemma sum_map_ite_zero (v : Rat) (x : String) :
    ∀ keys : List String, x ∉ keys →
      (keys.map (fun k => if x = k then v else 0)).sum = 0 := by
  intro keys
  induction keys with
  | nil => intro _; simp
  | cons k t ih =>
      intro hx
      have hxk : x ≠ k := fun he => hx (he ▸ List.mem_cons_self k t)
      have hxt : x ∉ t := fun ht => hx (List.mem_cons_of_mem k ht)
      simp [hxk, ih hxt]

/-- Summing an indicator over duplicate-free keys containing `x` picks out
the value exactly once. -/
lemma sum_map_ite_single (v : Rat) (x : String) :
    ∀ keys : List String, keys.Nodup → x ∈ keys →
      (keys.map (fun k => if x = k then v else 0)).sum = v := by
  intro keys
  induction keys with
  | nil => intro _ hx; cases hx
  | cons k t ih =>
      intro hnd hx
      rcases List.mem_cons.mp hx with he | ht
      · subst he
        have hkt : x ∉ t := (List.nodup_cons.mp hnd).1
        simp [sum_map_ite_zero v x t hkt]
      · have hxk : x ≠ k := by
          intro hxe
          exact (List.nodup_cons.mp hnd).1 (hxe ▸ ht)
        simp [hxk, ih (List.nodup_cons.mp hnd).2 ht]

/-- Partition lemma: when the duplicate-free key list covers every row's
key, the per-key filtered sums add up to the sum over the whole table. -/
lemma sum_filter_partition (key : Row → String) (f : Row → Rat)
    (keys : List String) (hnd : keys.Nodup) :
    ∀ df : List Row, (∀ r ∈ df, key r ∈ keys) →
      (keys.map (fun k => ((df.filter (fun r => key r == k)).map f).sum)).sum =
        (df.map f).sum := by
  intro df
  induction df with
  | nil => intro _; simp
  | cons r rest ih =>
      intro hcov
      have hr : key r ∈ keys := hcov r (List.mem_cons_self r rest)
      have hrest : ∀ q ∈ rest, key q ∈ keys :=
        fun q hq => hcov q (List.mem_cons_of_mem r hq)
      have hsplit : (keys.map (fun k =>
          (((r :: rest).filter (fun q => key q == k)).map f).sum)) =
          keys.map (fun k => (if key r = k then f r else 0) +
            ((rest.filter (fun q => key q == k)).map f).sum) := by
        apply List.map_congr_left
        intro k _
        by_cases hk : key r = k
        · simp [List.filter_cons, hk]
        · simp [List.filter_cons, hk]
      rw [hsplit, List.sum_map_add, sum_map_ite_single (f r) (key r) keys hnd hr,
        ih hrest]
      simp

/-- C1: for a non-empty table the aggregation returns one row per distinct
dimension value of the input, and the per-group sums add up to the metric
total of the whole input. -/
theorem SalesGrouper.group_and_format_count_conservation
    (metric dimension : String) (df : List Row) (_hne : df ≠ []) :
    (SalesGrouper.group_and_format metric dimension df).length =
      ((df.map (getDim dimension)).dedup).length ∧
    ((SalesGrouper.group_and_format metric dimension df).map
        (fun g => g.metricSum)).sum =
      (df.map (getMetric metric)).sum := by
  constructor
  · unfold SalesGrouper.group_and_format SalesGrouper.groupSums
    rw [List.length_map, List.length_insertionSort, List.length_map,
      List.length_insertionSort]
  · unfold SalesGrouper.group_and_format
    rw [List.map_map]
    have hcomp : ((fun g : GroupedRow => g.metricSum) ∘ SalesGrouper.toGroupedRow metric) =
        (fun p : String × Rat => p.2) := rfl
    rw [hcomp]
    have hperm : List.Perm
        (List.insertionSort sumGE (SalesGrouper.groupSums metric dimension df))
        (SalesGrouper.groupSums metric dimension df) :=
      List.perm_insertionSort sumGE (SalesGrouper.groupSums metric dimension df)
    rw [(hperm.map (fun p : String × Rat => p.2)).sum_eq]
    unfold SalesGrouper.groupSums
    rw [List.map_map]
    have hnd : (List.insertionSort strLE ((df.map (getDim dimension)).dedup)).Nodup :=
      ((List.perm_insertionSort strLE ((df.map (getDim dimension)).dedup)).nodup_iff).mpr
        (List.nodup_dedup _)
    have hcov : ∀ r ∈ df,
        getDim dimension r ∈ List.insertionSort strLE ((df.map (getDim dimension)).dedup) := by
      intro r hrd
      rw [List.mem_insertionSort, List.mem_dedup]
      exact List.mem_map_of_mem (getDim dimension) hrd
    exact sum_filter_partition (getDim dimension) (getMetric metric) _ hnd df hcov

/-- C1 witness: on the sample dataset, grouping quantities by product gives
one row per distinct product and conserves the quantity total. -/
theorem SalesGrouper.group_and_format_count_conservation_witness :
    sampleDf ≠ [] ∧
    ((SalesGrouper.group_and_format "Quantidade Vendida" "Produto" sampleDf).length =
        ((sampleDf.map (getDim "Produto")).dedup).length ∧
      ((SalesGrouper.group_and_format "Quantidade Vendida" "Produto" sampleDf).map
          (fun g => g.metricSum)).sum =
        (sampleDf.map (getMetric "Quantidade Vendida")).sum) :=
  ⟨by simp [sampleDf],
    SalesGrouper.group_and_format_count_conservation "Quantidade Vendida" "Produto"
      sampleDf (by simp [sampleDf])⟩

/-- C3: the aggregated sequence is sorted non-increasing in the summed
metric, and the output is a deterministic function of the input: equal
input tables give equal output sequences, ties included. -/
theorem SalesGrouper.group_and_format_sorted_deterministic
    (metric dimension : String) (df df2 : List Row) :
    List.Sorted (fun a b : GroupedRow => b.metricSum ≤ a.metricSum)
      (SalesGrouper.group_and_format metric dimension df) ∧
    (df = df2 →
      SalesGrouper.group_and_format metric dimension df =
        SalesGrouper.group_and_format metric dimension df2) := by
  constructor
  · unfold SalesGrouper.group_and_format
    have hs := List.sorted_insertionSort sumGE (SalesGrouper.groupSums metric dimension df)
    exact List.pairwise_map.mpr hs
  · intro he
    rw [he]

/-- C3 witness: the characterization applied to the sample dataset. -/
theorem SalesGrouper.group_and_format_sorted_deterministic_witness :
    List.Sorted (fun a b : GroupedRow => b.metricSum ≤ a.metricSum)
      (SalesGrouper.group_and_format "Quantidade Vendida" "Produto" sampleDf) ∧
    (sampleDf = sampleDf →
      SalesGrouper.group_and_format "Quantidade Vendida" "Produto" sampleDf =
        SalesGrouper.group_and_format "Quantidade Vendida" "Produto" sampleDf) :=
  SalesGrouper.group_and_format_sorted_deterministic "Quantidade Vendida" "Produto"
    sampleDf sampleDf

/-- C7: when the selected state matches no record (and is not the sentinel),
the filter returns the empty list and `DashboardApp.run` stops with the
no-data outcome: no grouped rows are computed and no chart is built. -/
theorem DashboardApp.run_no_data_halts (data : List Row)
    (state month metric dimension : String)
    (hs : state ≠ "BRASIL") (hns : ∀ r ∈ data, r.estado ≠ state) :
    SalesFilter.apply_filters data state month = [] ∧
    DashboardApp.run data state month metric dimension = RunResult.noData := by
  have hempty : SalesFilter.apply_filters data state month = [] := by
    unfold SalesFilter.apply_filters
    rw [if_pos hs]
    rw [List.filter_eq_nil_iff]
    intro r hr
    have hrdata : r ∈ data := by
      by_cases hm : month ≠ "TODOS"
      · rw [if_pos hm] at hr
        exact (List.mem_filter.mp hr).1
      · rw [if_neg hm] at hr
        exact hr
    simp [hns r hrdata]
  refine ⟨hempty, ?_⟩
  unfold DashboardApp.run
  rw [hempty]
  rfl

/-- C7 witness: filtering the sample dataset to the non-existent state "AC"
yields the empty result and the pipeline halts with the no-data outcome. -/
theorem DashboardApp.run_no_data_halts_witness :
    SalesFilter.apply_filters sampleDf "AC" "TODOS" = [] ∧
    DashboardApp.run sampleDf "AC" "TODOS" "Quantidade Vendida" "Produto" =
      RunResult.noData :=
  DashboardApp.run_no_data_halts sampleDf "AC" "TODOS" "Quantidade Vendida" "Produto"
    (by decide)
    (by
      intro r hr
      simp only [sampleDf, rowCanetaSPJan, rowLapisRJFev, rowCanetaRJJan,
        List.mem_cons, List.not_mem_nil, or_false] at hr
      rcases hr with h | h | h <;> (subst h; decide))

/-- C5: for a non-empty aggregated table the reference line is one constant
value per x-category, equal to the unweighted arithmetic mean of the
summed metric values of the grouped rows. -/
theorem SalesChart.generate_chart_mean_line (df : List GroupedRow)
    (metric dimension state month : String) (_hne : df ≠ []) :
    (SalesChart.generate_chart df metric dimension state month).refLineY =
      List.replicate
        (SalesChart.generate_chart df metric dimension state month).barX.length
        (unweightedMean (df.map (fun g => g.metricSum))) := by
  simp [SalesChart.generate_chart, unweightedMean]

/-- C5 witness: for groups with sums 10, 20 and 30 the reference line is the
constant 20 repeated across the three x-categories. -/
theorem SalesChart.generate_chart_mean_line_witness :
    (sampleGroups ≠ [] ∧
      (SalesChart.generate_chart sampleGroups "Lucro (R$)" "Produto" "BRASIL" "TODOS").refLineY =
        List.replicate
          (SalesChart.generate_chart sampleGroups "Lucro (R$)" "Produto" "BRASIL" "TODOS").barX.length
          (unweightedMean (sampleGroups.map (fun g => g.metricSum)))) ∧
    (SalesChart.generate_chart sampleGroups "Lucro (R$)" "Produto" "BRASIL" "TODOS").refLineY =
      [20, 20, 20] := by
  refine ⟨⟨by simp [sampleGroups],
    SalesChart.generate_chart_mean_line sampleGroups "Lucro (R$)" "Produto" "BRASIL" "TODOS"
      (by simp [sampleGroups])⟩, ?_⟩
  show List.replicate _ _ = _
  norm_num [sampleGroups, List.replicate]
